import Mathlib

/-!
Shallow embedding of the ZerodhaMCP repository: two near-duplicate MCP
servers (`src/MCPv2.py`, `src/MCPv3.py`) exposing Zerodha Kite brokerage
operations as tools and resources.

Python values passed in argument bags and returned by the brokerage SDK are
modelled by a small `Json` type; a Python exception is modelled by `PyErr`
(its class together with the message that `str(e)` renders); the blocking
brokerage SDK (`kiteconnect.KiteConnect`) is modelled by an oracle `KiteEnv`
giving the outcome of each SDK call, and every dispatch function returns,
besides the new server state and the textual response, the list of brokerage
adapter operations it actually invoked (`AdapterCall`), so that claims of the
form "the adapter is never reached" are statable.
-/

/-- A Python/JSON value as it flows through argument bags and SDK results. -/
inductive Json where
  | null
  | str (s : String)
  | num (n : Int)
  | arr (elems : List Json)
  | obj (fields : List (String × Json))
deriving Repr

mutual

/-- Model of `json.dumps`: a concrete serialization of a `Json` value. -/
def Json.dumps : Json → String
  | .null => "null"
  | .str s => "\"" ++ s ++ "\""
  | .num n => toString n
  | .arr xs => "[" ++ Json.dumpsList xs ++ "]"
  | .obj fs => "\x7b" ++ Json.dumpsFields fs ++ "\x7d"

/-- Serialize the elements of a JSON array. -/
def Json.dumpsList : List Json → String
  | [] => ""
  | x :: xs => Json.dumps x ++ "," ++ Json.dumpsList xs

/-- Serialize the fields of a JSON object. -/
def Json.dumpsFields : List (String × Json) → String
  | [] => ""
  | (k, v) :: fs => "\"" ++ k ++ "\":" ++ Json.dumps v ++ "," ++ Json.dumpsFields fs

end

/-- Model of Python `str(value)` as used inside f-strings. -/
def Json.pyStr : Json → String
  | .null => "None"
  | .str s => s
  | .num n => toString n
  | .arr xs => (Json.arr xs).dumps
  | .obj fs => (Json.obj fs).dumps

/-- A raised Python exception: its class and enough to render `str(e)`.
`KeyError(k)` renders as the repr of the key; `ValueError(m)` as `m`.
Exceptions raised by the brokerage SDK are modelled as `valueError` carrying
the SDK message. -/
inductive PyErr where
  | keyError (key : String)
  | valueError (msg : String)
deriving Repr, DecidableEq

/-- `str(e)` for a modelled exception. -/
def PyErr.render : PyErr → String
  | .keyError k => "\x27" ++ k ++ "\x27"
  | .valueError m => m

/-- An argument bag: the `arguments: Dict[str, Any]` of a tool call. -/
def Args := List (String × Json)

/-- `arguments[k]` lookup. -/
def Args.get (args : Args) (k : String) : Option Json :=
  List.lookup k args

/-- The `KiteConnect` client object: constructed with an api key, and given
an access token by `set_access_token`. -/
structure KiteClient where
  apiKey : Json
  accessToken : Option Json
deriving Repr

/-- One invocation of a brokerage adapter operation, with its parameters.
These are exactly the SDK operations the spec lists for the Brokerage Client
Adapter; client construction and `set_access_token` are local and not
adapter round-trips. -/
inductive AdapterCall where
  | profile
  | quote (instruments : Json)
  | holdings
  | positions
  | orders
  | margins
  | gtts
  | placeOrder (params : List (String × Json))
  | modifyOrder (order_id : Json) (params : List (String × Json))
  | cancelOrder (order_id : Json)
deriving Repr

/-- Oracle for the outside world: the outcome each SDK call would have if
invoked during the current dispatch. `.error e` means the call raises `e`. -/
structure KiteEnv where
  ctorRes : Except PyErr Unit
  setTokenRes : Except PyErr Unit
  profileRes : Except PyErr (List (String × Json))
  quoteRes : Except PyErr Json
  holdingsRes : Except PyErr Json
  positionsRes : Except PyErr Json
  ordersRes : Except PyErr Json
  marginsRes : Except PyErr Json
  gttsRes : Except PyErr (List Json)
  placeOrderRes : Except PyErr Json
  modifyOrderRes : Except PyErr Json
  cancelOrderRes : Except PyErr Unit

/-- Look up required argument keys in order; the first absent key raises
`KeyError`, as evaluating the corresponding `arguments[k]` does in Python. -/
def requiredLookup (args : Args) : List String → Except PyErr (List (String × Json))
  | [] => .ok []
  | k :: ks =>
    match args.get k with
    | none => .error (.keyError k)
    | some v => (requiredLookup args ks).map (fun rest => (k, v) :: rest)

namespace MCPv2

/-- The mutable fields of `KiteMCPServer` in MCPv2.py. -/
structure ServerState where
  kite : Option KiteClient
  api_key : Option Json
  access_token : Option Json
  is_configured : Bool
deriving Repr

/-- The server state right after `__init__`. -/
def initState : ServerState :=
  { kite := none, api_key := none, access_token := none, is_configured := false }

/-- `_check_kite_connection`. -/
def check_kite_connection (st : ServerState) : Bool :=
  st.kite.isSome && st.is_configured

/-- Result of one tool dispatch: new state, texts returned, adapter calls made. -/
def ToolResult := ServerState × List String × List AdapterCall

/-- `profile.get("user_name", "N/A")` rendered in the success f-string. -/
def userNameOrNA (p : List (String × Json)) : String :=
  match List.lookup "user_name" p with
  | some v => v.pyStr
  | none => "N/A"

/-- `_configure_kite`: stores credentials, builds the client, sets the token,
fetches the profile; only then flips `is_configured`. Any raise is caught,
`is_configured` is reset to false, and an error text is returned. State
updates made before the raise persist. -/
def configure_kite (env : KiteEnv) (st : ServerState) (args : Args) : ToolResult :=
  match args.get "api_key" with
  | none =>
    ({ st with is_configured := false },
     [" Error configuring Kite: " ++ (PyErr.keyError "api_key").render], [])
  | some ak =>
    let st1 := { st with api_key := some ak }
    match args.get "access_token" with
    | none =>
      ({ st1 with is_configured := false },
       [" Error configuring Kite: " ++ (PyErr.keyError "access_token").render], [])
    | some tok =>
      let st2 := { st1 with access_token := some tok }
      match env.ctorRes with
      | .error e =>
        ({ st2 with is_configured := false }, [" Error configuring Kite: " ++ e.render], [])
      | .ok _ =>
        let st3 := { st2 with kite := some { apiKey := ak, accessToken := none } }
        match env.setTokenRes with
        | .error e =>
          ({ st3 with is_configured := false }, [" Error configuring Kite: " ++ e.render], [])
        | .ok _ =>
          let st4 := { st3 with kite := some { apiKey := ak, accessToken := some tok } }
          match env.profileRes with
          | .error e =>
            ({ st4 with is_configured := false },
             [" Error configuring Kite: " ++ e.render], [.profile])
          | .ok p =>
            ({ st4 with is_configured := true },
             [" Kite Connect configured successfully!\nUser: " ++ userNameOrNA p],
             [.profile])

/-- `_get_quote`. -/
def get_quote (env : KiteEnv) (st : ServerState) (args : Args) : ToolResult :=
  match st.kite with
  | none => (st, [" Kite not configured."], [])
  | some _ =>
    match args.get "instruments" with
    | none =>
      (st, [" Error getting quotes: " ++ (PyErr.keyError "instruments").render], [])
    | some instruments =>
      match env.quoteRes with
      | .error e => (st, [" Error getting quotes: " ++ e.render], [.quote instruments])
      | .ok quotes =>
        (st, [" Real-time Quotes:\n```json\n" ++ quotes.dumps ++ "\n```"],
         [.quote instruments])

/-- The required keys of `place_order`, in the order the dict literal
evaluates `arguments[...]`. -/
def orderKeys : List String :=
  ["tradingsymbol", "exchange", "transaction_type", "quantity", "product", "order_type"]

/-- `_place_order`: required keys plus `variety` default, plus `price` and
`trigger_price` only when present in the bag. -/
def place_order (env : KiteEnv) (st : ServerState) (args : Args) : ToolResult :=
  match st.kite with
  | none => (st, [" Kite not configured."], [])
  | some _ =>
    match requiredLookup args orderKeys with
    | .error e => (st, [" Error placing order: " ++ e.render], [])
    | .ok base =>
      let ps0 := base ++ [("variety", (args.get "variety").getD (Json.str "regular"))]
      let ps1 := ps0 ++ (match args.get "price" with
        | some p => [("price", p)]
        | none => [])
      let ps := ps1 ++ (match args.get "trigger_price" with
        | some p => [("trigger_price", p)]
        | none => [])
      match env.placeOrderRes with
      | .error e => (st, [" Error placing order: " ++ e.render], [.placeOrder ps])
      | .ok oid =>
        (st, [" Order placed successfully!\nOrder ID: " ++ oid.pyStr], [.placeOrder ps])

/-- `_modify_order`: `order_id` plus a pass-through of every other key. -/
def modify_order (env : KiteEnv) (st : ServerState) (args : Args) : ToolResult :=
  match st.kite with
  | none => (st, [" Kite not configured."], [])
  | some _ =>
    match args.get "order_id" with
    | none =>
      (st, [" Error modifying order: " ++ (PyErr.keyError "order_id").render], [])
    | some oid =>
      let params := args.filter (fun kv => kv.1 ≠ "order_id")
      match env.modifyOrderRes with
      | .error e => (st, [" Error modifying order: " ++ e.render], [.modifyOrder oid params])
      | .ok _ =>
        (st, [" Order modified successfully!\nOrder ID: " ++ oid.pyStr],
         [.modifyOrder oid params])

/-- `_cancel_order`. -/
def cancel_order (env : KiteEnv) (st : ServerState) (args : Args) : ToolResult :=
  match st.kite with
  | none => (st, [" Kite not configured."], [])
  | some _ =>
    match args.get "order_id" with
    | none =>
      (st, [" Error cancelling order: " ++ (PyErr.keyError "order_id").render], [])
    | some oid =>
      match env.cancelOrderRes with
      | .error e => (st, [" Error cancelling order: " ++ e.render], [.cancelOrder oid])
      | .ok _ =>
        (st, [" Order cancelled successfully!\nOrder ID: " ++ oid.pyStr], [.cancelOrder oid])

/-- `_get_holdings`. -/
def get_holdings (env : KiteEnv) (st : ServerState) (_args : Args) : ToolResult :=
  match st.kite with
  | none => (st, [" Kite not configured."], [])
  | some _ =>
    match env.holdingsRes with
    | .error e => (st, [" Error getting holdings: " ++ e.render], [.holdings])
    | .ok holdings =>
      (st, [" Current Holdings:\n```json\n" ++ holdings.dumps ++ "\n```"], [.holdings])

/-- `_get_gtt_orders`: the one tool gated on `_check_kite_connection`, and the
one with a special empty-result sentence. -/
def get_gtt_orders (env : KiteEnv) (st : ServerState) (_args : Args) : ToolResult :=
  if check_kite_connection st = false then
    (st, [" Kite Connect not configured. Use configure_kite tool first."], [])
  else
    match env.gttsRes with
    | .error e => (st, [" Failed to retrieve GTT orders: " ++ e.render], [.gtts])
    | .ok [] => (st, ["No active GTT orders found."], [.gtts])
    | .ok gtt_orders =>
      (st, [" Active GTT Orders:\n```json\n" ++ (Json.arr gtt_orders).dumps ++ "\n```"],
       [.gtts])

/-- `call_kite_tool`: the dispatch chain; an unknown name raises
`ValueError("Unknown tool: ...")`, caught by the surrounding handler into a
failure text. -/
def call_kite_tool (env : KiteEnv) (st : ServerState) (name : String) (args : Args) :
    ToolResult :=
  if name = "configure_kite" then configure_kite env st args
  else if name = "get_quote" then get_quote env st args
  else if name = "place_order" then place_order env st args
  else if name = "modify_order" then modify_order env st args
  else if name = "cancel_order" then cancel_order env st args
  else if name = "get_holdings" then get_holdings env st args
  else if name = "get_gtt_orders" then get_gtt_orders env st args
  else (st, [" Tool \x27" ++ name ++ "\x27 failed: Unknown tool: " ++ name], [])

/-- `_fetch_resource_data`: fixed uri table; unknown uri raises. -/
def fetch_resource_data (env : KiteEnv) (uri : String) :
    Except PyErr Json × List AdapterCall :=
  if uri = "kite://profile" then (env.profileRes.map Json.obj, [.profile])
  else if uri = "kite://portfolio" then (env.holdingsRes, [.holdings])
  else if uri = "kite://positions" then (env.positionsRes, [.positions])
  else if uri = "kite://orders" then (env.ordersRes, [.orders])
  else if uri = "kite://funds" then (env.marginsRes, [.margins])
  else if uri = "kite://gtt-orders" then (env.gttsRes.map Json.arr, [.gtts])
  else (.error (.valueError ("Unknown resource URI: " ++ uri)), [])

/-- `read_kite_resource`: gated on `_check_kite_connection`; any fetch failure
is re-raised as `ValueError("Failed to read resource ...: ...")`. -/
def read_kite_resource (env : KiteEnv) (st : ServerState) (uri : String) :
    Except PyErr String × List AdapterCall :=
  if check_kite_connection st = false then
    (.error (.valueError " Kite Connect not configured. Use configure_kite tool first."), [])
  else
    match fetch_resource_data env uri with
    | (.ok d, calls) => (.ok d.dumps, calls)
    | (.error e, calls) =>
      (.error (.valueError ("Failed to read resource " ++ uri ++ ": " ++ e.render)), calls)

end MCPv2

namespace MCPv3

/-- The mutable state of `KiteMCPServer` in MCPv3.py: just the client. -/
structure ServerState where
  kite : Option KiteClient
deriving Repr

/-- The server state right after `__init__`. -/
def initState : ServerState := { kite := none }

/-- Result of one tool dispatch. `call_tool` has no `else` branch, so an
unknown name falls off the `if`/`elif` chain and the Python function returns
`None`: the response component is an `Option`. -/
def ToolResult := ServerState × Option (List String) × List AdapterCall

/-- `profile.get("user_name")` rendered in the `Connected:` f-string
(a missing key renders as `None`). -/
def userNameOrNone (p : List (String × Json)) : String :=
  match List.lookup "user_name" p with
  | some v => v.pyStr
  | none => "None"

/-- The required keys of `place_order`, in the order the keyword arguments
evaluate `arguments[...]`. -/
def orderKeys : List String :=
  ["symbol", "exchange", "transaction_type", "quantity", "product", "order_type"]

/-- `call_tool`: the whole chain sits in one `try`, so any raise from any
branch is caught into `Error: ...`; an unknown name returns no response.
In the `configure` branch, `self.kite` is assigned the freshly built client
before `set_access_token` and `profile` run, and is never reset on failure. -/
def call_tool (env : KiteEnv) (st : ServerState) (name : String) (args : Args) :
    ToolResult :=
  if name = "configure" then
    match args.get "api_key" with
    | none => (st, some ["Error: " ++ (PyErr.keyError "api_key").render], [])
    | some ak =>
      match env.ctorRes with
      | .error e => (st, some ["Error: " ++ e.render], [])
      | .ok _ =>
        let st1 : ServerState := { kite := some { apiKey := ak, accessToken := none } }
        match args.get "access_token" with
        | none => (st1, some ["Error: " ++ (PyErr.keyError "access_token").render], [])
        | some tok =>
          match env.setTokenRes with
          | .error e => (st1, some ["Error: " ++ e.render], [])
          | .ok _ =>
            let st2 : ServerState := { kite := some { apiKey := ak, accessToken := some tok } }
            match env.profileRes with
            | .error e => (st2, some ["Error: " ++ e.render], [.profile])
            | .ok p => (st2, some ["Connected: " ++ userNameOrNone p], [.profile])
  else if name = "quote" then
    match st.kite with
    | none => (st, some ["Configure first"], [])
    | some _ =>
      match args.get "symbols" with
      | none => (st, some ["Error: " ++ (PyErr.keyError "symbols").render], [])
      | some symbols =>
        match env.quoteRes with
        | .error e => (st, some ["Error: " ++ e.render], [.quote symbols])
        | .ok quotes =>
          (st, some ["Quotes:\n```json\n" ++ quotes.dumps ++ "\n```"], [.quote symbols])
  else if name = "place_order" then
    match st.kite with
    | none => (st, some ["Configure first"], [])
    | some _ =>
      match requiredLookup args orderKeys with
      | .error e => (st, some ["Error: " ++ e.render], [])
      | .ok base =>
        let renamed := base.map (fun kv =>
          (if kv.1 = "symbol" then "tradingsymbol" else kv.1, kv.2))
        let ps := renamed ++
          [("price", (args.get "price").getD Json.null), ("variety", Json.str "regular")]
        match env.placeOrderRes with
        | .error e => (st, some ["Error: " ++ e.render], [.placeOrder ps])
        | .ok oid => (st, some ["Order placed: " ++ oid.pyStr], [.placeOrder ps])
  else if name = "get_holdings" then
    match st.kite with
    | none => (st, some ["Configure first"], [])
    | some _ =>
      match env.holdingsRes with
      | .error e => (st, some ["Error: " ++ e.render], [.holdings])
      | .ok holdings =>
        (st, some ["Holdings:\n```json\n" ++ holdings.dumps ++ "\n```"], [.holdings])
  else if name = "get_gtt_orders" then
    match st.kite with
    | none => (st, some ["Configure first"], [])
    | some _ =>
      match env.gttsRes with
      | .error e => (st, some ["Error: " ++ e.render], [.gtts])
      | .ok gtt_orders =>
        (st, some ["GTT Orders:\n```json\n" ++ (Json.arr gtt_orders).dumps ++ "\n```"],
         [.gtts])
  else (st, none, [])

/-- `read_resource`: gated on `self.kite`; the uri table holds only three
uris; an unknown uri raises `KeyError` out of `uri_map[str(uri)]`, and there
is no `try`, so adapter failures also propagate raw. -/
def read_resource (env : KiteEnv) (st : ServerState) (uri : String) :
    Except PyErr String × List AdapterCall :=
  match st.kite with
  | none => (.error (.valueError "Configure Kite first"), [])
  | some _ =>
    if uri = "kite://portfolio" then (env.holdingsRes.map Json.dumps, [.holdings])
    else if uri = "kite://positions" then (env.positionsRes.map Json.dumps, [.positions])
    else if uri = "kite://orders" then (env.ordersRes.map Json.dumps, [.orders])
    else (.error (.keyError uri), [])

end MCPv3

/-! ### Concrete fixtures for witnesses and counterexamples -/

/-- An oracle where every SDK call succeeds. -/
def okEnv : KiteEnv where
  ctorRes := .ok ()
  setTokenRes := .ok ()
  profileRes := .ok [("user_id", Json.str "AB1234"), ("user_name", Json.str "Test User")]
  quoteRes := .ok (Json.obj [("NSE:INFY", Json.num 1500)])
  holdingsRes := .ok (Json.arr [])
  positionsRes := .ok (Json.arr [])
  ordersRes := .ok (Json.arr [])
  marginsRes := .ok (Json.obj [])
  gttsRes := .ok []
  placeOrderRes := .ok (Json.str "OID1")
  modifyOrderRes := .ok (Json.str "OID1")
  cancelOrderRes := .ok ()

/-- An oracle where the profile round-trip raises (rejected token). -/
def badTokenEnv : KiteEnv :=
  { okEnv with profileRes := .error (.valueError "Invalid access token") }

/-- A well-formed configure argument bag. -/
def cfgArgs : Args :=
  [("api_key", Json.str "key1"), ("access_token", Json.str "tok1")]

/-- MCPv2 state after a configure attempt whose profile round-trip raised:
credentials and client are set, `is_configured` is false. -/
def stFailV2 : MCPv2.ServerState :=
  (MCPv2.configure_kite badTokenEnv MCPv2.initState cfgArgs).1

/-- MCPv3 state after the same failed configure attempt: the client is set. -/
def stFailV3 : MCPv3.ServerState :=
  (MCPv3.call_tool badTokenEnv MCPv3.initState "configure" cfgArgs).1

/-- The client object that a successful `configure("key1", "tok1")` builds. -/
def testClient : KiteClient where
  apiKey := Json.str "key1"
  accessToken := some (Json.str "tok1")

/-- A fully configured MCPv2 state. -/
def v2Configured : MCPv2.ServerState where
  kite := some testClient
  api_key := some (Json.str "key1")
  access_token := some (Json.str "tok1")
  is_configured := true

/-- A configured MCPv3 state. -/
def v3Configured : MCPv3.ServerState where
  kite := some testClient

/-- A complete MCPv2 place_order bag without `price` or `trigger_price`. -/
def orderArgsV2 : Args :=
  [("tradingsymbol", Json.str "INFY"), ("exchange", Json.str "NSE"),
   ("transaction_type", Json.str "BUY"), ("quantity", Json.num 1),
   ("product", Json.str "CNC"), ("order_type", Json.str "MARKET")]

/-- The same bag under MCPv3 naming (`symbol` instead of `tradingsymbol`). -/
def orderArgsV3 : Args :=
  [("symbol", Json.str "INFY"), ("exchange", Json.str "NSE"),
   ("transaction_type", Json.str "BUY"), ("quantity", Json.num 1),
   ("product", Json.str "CNC"), ("order_type", Json.str "MARKET")]

/-! ### Helper lemmas -/

/-- If some key of the required list is absent from the bag, the ordered
extraction raises a `KeyError` for the first absent key, which is itself a
required key missing from the bag. -/
theorem requiredLookup_missing (args : Args) (ks : List String) (k : String)
    (hk : k ∈ ks) (h : args.get k = none) :
    ∃ k2, k2 ∈ ks ∧ args.get k2 = none ∧
      requiredLookup args ks = .error (.keyError k2) := by
  induction ks with
  | nil => cases hk
  | cons a rest ih =>
    cases ha : args.get a with
    | none =>
      exact ⟨a, List.mem_cons_self a rest, ha, by simp [requiredLookup, ha]⟩
    | some v =>
      have hk2 : k ∈ rest := by
        rcases List.mem_cons.mp hk with h1 | h1
        · subst h1; rw [ha] at h; cases h
        · exact h1
      rcases ih hk2 with ⟨k2, hmem, hnone, heq⟩
      exact ⟨k2, List.mem_cons_of_mem a hmem, hnone,
        by simp [requiredLookup, ha, heq, Except.map]⟩

/-- MCPv2 dispatch reaches `get_quote` for the name `"get_quote"`. -/
theorem MCPv2.dispatch_get_quote (env : KiteEnv) (st : MCPv2.ServerState) (args : Args) :
    MCPv2.call_kite_tool env st "get_quote" args = MCPv2.get_quote env st args := rfl

/-- State is unchanged by `_get_quote`. -/
theorem MCPv2.get_quote_fst (env : KiteEnv) (st : MCPv2.ServerState) (args : Args) :
    (MCPv2.get_quote env st args).1 = st := by
  unfold MCPv2.get_quote
  cases st.kite <;> cases args.get "instruments" <;> cases env.quoteRes <;> rfl

/-- State is unchanged by `_place_order`. -/
theorem MCPv2.place_order_fst (env : KiteEnv) (st : MCPv2.ServerState) (args : Args) :
    (MCPv2.place_order env st args).1 = st := by
  unfold MCPv2.place_order
  cases st.kite <;> cases requiredLookup args MCPv2.orderKeys <;>
    cases env.placeOrderRes <;> rfl

/-- State is unchanged by `_modify_order`. -/
theorem MCPv2.modify_order_fst (env : KiteEnv) (st : MCPv2.ServerState) (args : Args) :
    (MCPv2.modify_order env st args).1 = st := by
  unfold MCPv2.modify_order
  cases st.kite <;> cases args.get "order_id" <;> cases env.modifyOrderRes <;> rfl

/-- State is unchanged by `_cancel_order`. -/
theorem MCPv2.cancel_order_fst (env : KiteEnv) (st : MCPv2.ServerState) (args : Args) :
    (MCPv2.cancel_order env st args).1 = st := by
  unfold MCPv2.cancel_order
  cases st.kite <;> cases args.get "order_id" <;> cases env.cancelOrderRes <;> rfl

/-- State is unchanged by `_get_holdings`. -/
theorem MCPv2.get_holdings_fst (env : KiteEnv) (st : MCPv2.ServerState) (args : Args) :
    (MCPv2.get_holdings env st args).1 = st := by
  unfold MCPv2.get_holdings
  cases st.kite <;> cases env.holdingsRes <;> rfl

/-- State is unchanged by `_get_gtt_orders`. -/
theorem MCPv2.get_gtt_orders_fst (env : KiteEnv) (st : MCPv2.ServerState) (args : Args) :
    (MCPv2.get_gtt_orders env st args).1 = st := by
  unfold MCPv2.get_gtt_orders
  cases MCPv2.check_kite_connection st <;> rcases env.gttsRes with e | (_ | ⟨g, gs⟩) <;> rfl

/-! ### Claim theorems -/

/-- C8: for every command other than configure, every argument bag and every
adapter outcome, dispatch leaves the whole Connection State unchanged (every
field, in both variants); only the configure branch mutates state. -/
theorem C8_only_configure_mutates (env : KiteEnv) (st2 : MCPv2.ServerState)
    (st3 : MCPv3.ServerState) (name2 name3 : String) (args : Args)
    (h2 : name2 ≠ "configure_kite") (h3 : name3 ≠ "configure") :
    (MCPv2.call_kite_tool env st2 name2 args).1 = st2 ∧
    (MCPv3.call_tool env st3 name3 args).1 = st3 := by
  constructor
  · unfold MCPv2.call_kite_tool
    rw [if_neg h2]
    split_ifs <;>
      first
        | exact MCPv2.get_quote_fst env st2 args
        | exact MCPv2.place_order_fst env st2 args
        | exact MCPv2.modify_order_fst env st2 args
        | exact MCPv2.cancel_order_fst env st2 args
        | exact MCPv2.get_holdings_fst env st2 args
        | exact MCPv2.get_gtt_orders_fst env st2 args
        | rfl
  · unfold MCPv3.call_tool
    rw [if_neg h3]
    split_ifs <;>
      first
        | rfl
        | (cases st3.kite <;> cases args.get "symbols" <;> cases env.quoteRes <;> rfl)
        | (cases st3.kite <;> cases requiredLookup args MCPv3.orderKeys <;>
            cases env.placeOrderRes <;> rfl)
        | (cases st3.kite <;> cases env.holdingsRes <;> rfl)
        | (cases st3.kite <;> rcases env.gttsRes with e | (_ | ⟨g, gs⟩) <;> rfl)

/-- C8 witness: concrete non-configure commands leave concrete states intact. -/
theorem C8_only_configure_mutates_witness :
    "cancel_order" ≠ "configure_kite" ∧ "quote" ≠ "configure" ∧
    (MCPv2.call_kite_tool okEnv v2Configured "cancel_order"
        [("order_id", Json.str "X")]).1 = v2Configured ∧
    (MCPv3.call_tool okEnv v3Configured "quote" [("order_id", Json.str "X")]).1
      = v3Configured := by
  refine ⟨by decide, by decide, ?_, ?_⟩
  · exact (C8_only_configure_mutates okEnv v2Configured v3Configured "cancel_order" "quote"
      [("order_id", Json.str "X")] (by decide) (by decide)).1
  · exact (C8_only_configure_mutates okEnv v2Configured v3Configured "cancel_order" "quote"
      [("order_id", Json.str "X")] (by decide) (by decide)).2

/-- C9: when the adapter's cancel operation raises, `cancel_order` returns a
failure text carrying the adapter's message verbatim (the response is the
fixed prefix followed by exactly `str(e)`), and the cancel call was made with
the given order id. -/
theorem C9_cancel_order_verbatim (env : KiteEnv) (st : MCPv2.ServerState)
    (c : KiteClient) (hk : st.kite = some c) (args : Args) (oid : Json)
    (ho : args.get "order_id" = some oid) (e : PyErr)
    (he : env.cancelOrderRes = .error e) :
    MCPv2.call_kite_tool env st "cancel_order" args
      = (st, [" Error cancelling order: " ++ e.render], [.cancelOrder oid]) := by
  show MCPv2.cancel_order env st args = _
  unfold MCPv2.cancel_order
  rw [hk, ho, he]

/-- C9 witness: the adapter message `Order not found` appears verbatim. -/
theorem C9_cancel_order_verbatim_witness :
    v2Configured.kite = some testClient ∧
    (cfgArgs.get "api_key" = some (Json.str "key1")) ∧
    MCPv2.call_kite_tool
        { okEnv with cancelOrderRes := .error (.valueError "Order not found") }
        v2Configured "cancel_order" [("order_id", Json.str "X")]
      = (v2Configured, [" Error cancelling order: Order not found"],
         [.cancelOrder (Json.str "X")]) := by
  refine ⟨rfl, rfl, ?_⟩
  exact C9_cancel_order_verbatim
    { okEnv with cancelOrderRes := .error (.valueError "Order not found") }
    v2Configured _ rfl [("order_id", Json.str "X")] (Json.str "X") rfl
    (.valueError "Order not found") rfl

/-- C10: on a configured MCPv2 instance, an empty `gtts` result produces the
plain sentence `No active GTT orders found.` with no JSON block, while a
non-empty result is returned as an embedded JSON serialization. -/
theorem C10_gtt_empty_sentence (env : KiteEnv) (st : MCPv2.ServerState)
    (c : KiteClient) (hk : st.kite = some c) (hcfg : st.is_configured = true)
    (args : Args) :
    (env.gttsRes = .ok [] →
      MCPv2.call_kite_tool env st "get_gtt_orders" args
        = (st, ["No active GTT orders found."], [.gtts])) ∧
    (∀ g gs, env.gttsRes = .ok (g :: gs) →
      MCPv2.call_kite_tool env st "get_gtt_orders" args
        = (st, [" Active GTT Orders:\n```json\n" ++ (Json.arr (g :: gs)).dumps ++ "\n```"],
           [.gtts])) := by
  have hchk : MCPv2.check_kite_connection st = true := by
    unfold MCPv2.check_kite_connection
    rw [hk, hcfg]
    rfl
  constructor
  · intro hg
    show MCPv2.get_gtt_orders env st args = _
    unfold MCPv2.get_gtt_orders
    rw [hchk, hg]
    rfl
  · intro g gs hg
    show MCPv2.get_gtt_orders env st args = _
    unfold MCPv2.get_gtt_orders
    rw [hchk, hg]
    rfl

/-- C1 counterexample: after a configure attempt whose profile round-trip
raised, no successful configure has completed (`is_configured` is false), yet
invoking `get_quote` in that reachable state does not return a not-configured
text and does invoke the adapter's quote operation. -/
theorem C1_counterexample :
    stFailV2.is_configured = false ∧
    (MCPv2.call_kite_tool badTokenEnv stFailV2 "get_quote"
        [("instruments", Json.str "NSE:INFY")]).2.2
      = [AdapterCall.quote (Json.str "NSE:INFY")] ∧
    (MCPv2.call_kite_tool badTokenEnv stFailV2 "get_quote"
        [("instruments", Json.str "NSE:INFY")]).2.1
      ≠ [" Kite not configured."] ∧
    (MCPv2.call_kite_tool badTokenEnv stFailV2 "get_quote"
        [("instruments", Json.str "NSE:INFY")]).2.1
      ≠ [" Kite Connect not configured. Use configure_kite tool first."] := by
  refine ⟨rfl, rfl, ?_, ?_⟩ <;> decide

/-- C1 (amended): every command other than configure, invoked in a state whose
adapter client is unset (`kite = None`, which covers the initial state),
returns a not-configured failure text and never invokes any adapter
operation; the original claim fails for unconfigured states whose client was
set by a failed configure attempt. -/
theorem C1_amended (env : KiteEnv) (st2 : MCPv2.ServerState) (st3 : MCPv3.ServerState)
    (name2 name3 : String) (args : Args)
    (h2 : name2 ∈ ["get_quote", "place_order", "modify_order", "cancel_order",
      "get_holdings", "get_gtt_orders"])
    (h3 : name3 ∈ ["quote", "place_order", "get_holdings", "get_gtt_orders"])
    (hk2 : st2.kite = none) (hk3 : st3.kite = none) :
    ((MCPv2.call_kite_tool env st2 name2 args).2.1 = [" Kite not configured."] ∨
      (MCPv2.call_kite_tool env st2 name2 args).2.1
        = [" Kite Connect not configured. Use configure_kite tool first."]) ∧
    (MCPv2.call_kite_tool env st2 name2 args).2.2 = [] ∧
    (MCPv3.call_tool env st3 name3 args).2.1 = some ["Configure first"] ∧
    (MCPv3.call_tool env st3 name3 args).2.2 = [] := by
  have hchk : MCPv2.check_kite_connection st2 = false := by
    unfold MCPv2.check_kite_connection
    rw [hk2]
    rfl
  refine ⟨?_, ?_, ?_, ?_⟩ <;> fin_cases h2 <;> fin_cases h3 <;>
    simp [MCPv2.call_kite_tool, MCPv2.get_quote, MCPv2.place_order,
      MCPv2.modify_order, MCPv2.cancel_order, MCPv2.get_holdings,
      MCPv2.get_gtt_orders, MCPv3.call_tool, hchk, hk2, hk3]

/-- C1 witness: a concrete unset-client state with concrete commands. -/
theorem C1_amended_witness :
    MCPv2.initState.kite = none ∧ MCPv3.initState.kite = none ∧
    (((MCPv2.call_kite_tool okEnv MCPv2.initState "get_quote" []).2.1
        = [" Kite not configured."] ∨
      (MCPv2.call_kite_tool okEnv MCPv2.initState "get_quote" []).2.1
        = [" Kite Connect not configured. Use configure_kite tool first."]) ∧
    (MCPv2.call_kite_tool okEnv MCPv2.initState "get_quote" []).2.2 = [] ∧
    (MCPv3.call_tool okEnv MCPv3.initState "quote" []).2.1 = some ["Configure first"] ∧
    (MCPv3.call_tool okEnv MCPv3.initState "quote" []).2.2 = []) := by
  refine ⟨rfl, rfl, ?_⟩
  exact C1_amended okEnv MCPv2.initState MCPv3.initState "get_quote" "quote" []
    (by decide) (by decide) rfl rfl

/-- C3 counterexample: when the profile round-trip raises during configure,
the state afterwards is not equivalent to the pre-configure state: the
adapter client remains set in both variants, and a subsequent quote command
is not gated — it reaches the adapter. -/
theorem C3_counterexample :
    stFailV2.kite.isSome = true ∧
    stFailV3.kite.isSome = true ∧
    MCPv2.initState.kite.isSome = false ∧
    MCPv3.initState.kite.isSome = false ∧
    (MCPv2.call_kite_tool badTokenEnv stFailV2 "get_quote"
        [("instruments", Json.str "NSE:INFY")]).2.2
      = [AdapterCall.quote (Json.str "NSE:INFY")] ∧
    (MCPv3.call_tool badTokenEnv stFailV3 "quote"
        [("symbols", Json.str "NSE:INFY")]).2.2
      = [AdapterCall.quote (Json.str "NSE:INFY")] :=
  ⟨rfl, rfl, rfl, rfl, rfl, rfl⟩

/-- C3 (amended): a configure whose profile round-trip raises leaves the
configured flag false (MCPv2) and returns a failure text containing the
raised description in both variants; but the adapter client field keeps the
freshly built client, so afterwards only the paths gated on the configured
flag (MCPv2's `get_gtt_orders`, and resource reads) remain blocked, while
commands gated on client presence (such as quote) are not. -/
theorem C3_configure_failure (env : KiteEnv) (st2 : MCPv2.ServerState)
    (st3 : MCPv3.ServerState) (args : Args) (ak tok : Json)
    (hak : args.get "api_key" = some ak) (hat : args.get "access_token" = some tok)
    (hc : env.ctorRes = .ok ()) (hs : env.setTokenRes = .ok ())
    (e : PyErr) (hp : env.profileRes = .error e) :
    (MCPv2.call_kite_tool env st2 "configure_kite" args).1.is_configured = false ∧
    (MCPv2.call_kite_tool env st2 "configure_kite" args).1.kite
      = some { apiKey := ak, accessToken := some tok } ∧
    (MCPv2.call_kite_tool env st2 "configure_kite" args).2.1
      = [" Error configuring Kite: " ++ e.render] ∧
    (MCPv3.call_tool env st3 "configure" args).1.kite
      = some { apiKey := ak, accessToken := some tok } ∧
    (MCPv3.call_tool env st3 "configure" args).2.1 = some ["Error: " ++ e.render] ∧
    (MCPv2.call_kite_tool env (MCPv2.call_kite_tool env st2 "configure_kite" args).1
        "get_gtt_orders" []).2.1
      = [" Kite Connect not configured. Use configure_kite tool first."] ∧
    (MCPv2.call_kite_tool env (MCPv2.call_kite_tool env st2 "configure_kite" args).1
        "get_gtt_orders" []).2.2 = [] ∧
    (∀ v, (MCPv2.call_kite_tool env
        (MCPv2.call_kite_tool env st2 "configure_kite" args).1
        "get_quote" [("instruments", v)]).2.2 = [AdapterCall.quote v]) ∧
    (∀ v, (MCPv3.call_tool env (MCPv3.call_tool env st3 "configure" args).1
        "quote" [("symbols", v)]).2.2 = [AdapterCall.quote v]) := by
  have h2 : MCPv2.call_kite_tool env st2 "configure_kite" args
      = (⟨some ⟨ak, some tok⟩, some ak, some tok, false⟩,
         [" Error configuring Kite: " ++ e.render], [.profile]) := by
    show MCPv2.configure_kite env st2 args = _
    unfold MCPv2.configure_kite
    rw [hak, hat, hc, hs, hp]
  have h3 : MCPv3.call_tool env st3 "configure" args
      = (⟨some ⟨ak, some tok⟩⟩, some ["Error: " ++ e.render], [.profile]) := by
    unfold MCPv3.call_tool
    rw [if_pos rfl, hak, hc, hat, hs, hp]
  refine ⟨by rw [h2], by rw [h2], by rw [h2], by rw [h3], by rw [h3],
    by rw [h2]; rfl, by rw [h2]; rfl, ?_, ?_⟩
  · intro v
    rw [h2, MCPv2.dispatch_get_quote]
    unfold MCPv2.get_quote
    cases env.quoteRes <;> rfl
  · intro v
    rw [h3]
    unfold MCPv3.call_tool
    cases env.quoteRes <;> rfl

/-- C3 witness: the rejected-token oracle at the initial states. -/
theorem C3_configure_failure_witness :
    cfgArgs.get "api_key" = some (Json.str "key1") ∧
    badTokenEnv.profileRes = .error (.valueError "Invalid access token") ∧
    (MCPv2.call_kite_tool badTokenEnv MCPv2.initState "configure_kite"
        cfgArgs).1.is_configured = false ∧
    (MCPv2.call_kite_tool badTokenEnv MCPv2.initState "configure_kite" cfgArgs).2.1
      = [" Error configuring Kite: Invalid access token"] ∧
    (MCPv3.call_tool badTokenEnv MCPv3.initState "configure" cfgArgs).2.1
      = some ["Error: Invalid access token"] := by
  have h := C3_configure_failure badTokenEnv MCPv2.initState MCPv3.initState cfgArgs
    (Json.str "key1") (Json.str "tok1") rfl rfl rfl rfl
    (.valueError "Invalid access token") rfl
  exact ⟨rfl, rfl, h.1, h.2.2.1, h.2.2.2.2.1⟩

/-- C4 counterexample: MCPv3's dispatch has no else branch — an unknown name
falls through and the handler returns no response at all (Python None),
rather than failing with a response identifying the command as unknown;
shown in both an unconfigured and a configured state. -/
theorem C4_counterexample :
    (MCPv3.call_tool okEnv MCPv3.initState "frobnicate" []).2.1 = none ∧
    (MCPv3.call_tool okEnv v3Configured "frobnicate" []).2.1 = none ∧
    (MCPv3.call_tool okEnv v3Configured "frobnicate" []).2.2 = [] :=
  ⟨rfl, rfl, rfl⟩

/-- C4 (amended): for a name outside the static table, MCPv2 returns a text
response identifying the tool as unknown, with no adapter call and no state
change, for every argument bag and state; MCPv3 instead falls off its
dispatch chain and returns no response (None), also with no adapter call and
no state change. -/
theorem C4_unknown_command (env : KiteEnv) (st2 : MCPv2.ServerState)
    (st3 : MCPv3.ServerState) (name : String) (args : Args)
    (h2 : name ∉ ["configure_kite", "get_quote", "place_order", "modify_order",
      "cancel_order", "get_holdings", "get_gtt_orders"])
    (h3 : name ∉ ["configure", "quote", "place_order", "get_holdings",
      "get_gtt_orders"]) :
    MCPv2.call_kite_tool env st2 name args
      = (st2, [" Tool \x27" ++ name ++ "\x27 failed: Unknown tool: " ++ name], []) ∧
    MCPv3.call_tool env st3 name args = (st3, none, []) := by
  simp only [List.mem_cons, List.not_mem_nil, or_false, not_or] at h2 h3
  obtain ⟨n1, n2, n3, n4, n5, n6, n7⟩ := h2
  obtain ⟨m1, m2, m3, m4, m5⟩ := h3
  constructor
  · unfold MCPv2.call_kite_tool
    rw [if_neg n1, if_neg n2, if_neg n3, if_neg n4, if_neg n5, if_neg n6, if_neg n7]
  · unfold MCPv3.call_tool
    rw [if_neg m1, if_neg m2, if_neg m3, if_neg m4, if_neg m5]

/-- C4 witness: a concrete unknown name in concrete states. -/
theorem C4_unknown_command_witness :
    MCPv2.call_kite_tool okEnv v2Configured "frobnicate" []
      = (v2Configured,
         [" Tool \x27" ++ "frobnicate" ++ "\x27 failed: Unknown tool: " ++ "frobnicate"],
         []) ∧
    MCPv3.call_tool okEnv v3Configured "frobnicate" [] = (v3Configured, none, []) :=
  C4_unknown_command okEnv v2Configured v3Configured "frobnicate" []
    (by decide) (by decide)

/-- C5: a configure whose profile round-trip succeeds transitions the state
to configured (flag true and client set in MCPv2; client set in MCPv3) and
returns a success text naming the user name taken from the fetched profile. -/
theorem C5_configure_success (env : KiteEnv) (st2 : MCPv2.ServerState)
    (st3 : MCPv3.ServerState) (args : Args) (ak tok : Json)
    (hak : args.get "api_key" = some ak) (hat : args.get "access_token" = some tok)
    (hc : env.ctorRes = .ok ()) (hs : env.setTokenRes = .ok ())
    (p : List (String × Json)) (hp : env.profileRes = .ok p)
    (un : Json) (hu : List.lookup "user_name" p = some un) :
    MCPv2.call_kite_tool env st2 "configure_kite" args
      = (⟨some ⟨ak, some tok⟩, some ak, some tok, true⟩,
         [" Kite Connect configured successfully!\nUser: " ++ un.pyStr], [.profile]) ∧
    MCPv3.call_tool env st3 "configure" args
      = (⟨some ⟨ak, some tok⟩⟩, some ["Connected: " ++ un.pyStr], [.profile]) := by
  constructor
  · show MCPv2.configure_kite env st2 args = _
    unfold MCPv2.configure_kite
    unfold MCPv2.userNameOrNA
    simp only [hak, hat, hc, hs, hp, hu]
  · unfold MCPv3.call_tool
    rw [if_pos rfl]
    unfold MCPv3.userNameOrNone
    simp only [hak, hc, hat, hs, hp, hu]

/-- C5 witness: a successful configure against the all-success oracle. -/
theorem C5_configure_success_witness :
    okEnv.profileRes
      = .ok [("user_id", Json.str "AB1234"), ("user_name", Json.str "Test User")] ∧
    MCPv2.call_kite_tool okEnv MCPv2.initState "configure_kite" cfgArgs
      = (⟨some ⟨Json.str "key1", some (Json.str "tok1")⟩,
          some (Json.str "key1"), some (Json.str "tok1"), true⟩,
         [" Kite Connect configured successfully!\nUser: "
           ++ (Json.str "Test User").pyStr], [.profile]) ∧
    MCPv3.call_tool okEnv MCPv3.initState "configure" cfgArgs
      = (⟨some ⟨Json.str "key1", some (Json.str "tok1")⟩⟩,
         some ["Connected: " ++ (Json.str "Test User").pyStr], [.profile]) := by
  have h := C5_configure_success okEnv MCPv2.initState MCPv3.initState cfgArgs
    (Json.str "key1") (Json.str "tok1") rfl rfl rfl rfl
    [("user_id", Json.str "AB1234"), ("user_name", Json.str "Test User")] rfl
    (Json.str "Test User") rfl
  exact ⟨rfl, h.1, h.2⟩

/-- C6: place_order with a bag lacking `quantity` (in either variant, on a
configured instance) returns an argument-error text naming the first missing
required key, leaves the state unchanged, and never invokes the adapter's
order placement. -/
theorem C6_place_order_missing_quantity (env : KiteEnv) (st2 : MCPv2.ServerState)
    (st3 : MCPv3.ServerState) (c2 c3 : KiteClient)
    (hk2 : st2.kite = some c2) (hk3 : st3.kite = some c3)
    (args2 args3 : Args)
    (h2 : args2.get "quantity" = none) (h3 : args3.get "quantity" = none) :
    (∃ k, k ∈ MCPv2.orderKeys ∧ args2.get k = none ∧
      MCPv2.call_kite_tool env st2 "place_order" args2
        = (st2, [" Error placing order: " ++ (PyErr.keyError k).render], [])) ∧
    (∃ k, k ∈ MCPv3.orderKeys ∧ args3.get k = none ∧
      MCPv3.call_tool env st3 "place_order" args3
        = (st3, some ["Error: " ++ (PyErr.keyError k).render], [])) := by
  constructor
  · obtain ⟨k, hmem, hnone, heq⟩ :=
      requiredLookup_missing args2 MCPv2.orderKeys "quantity" (by decide) h2
    refine ⟨k, hmem, hnone, ?_⟩
    show MCPv2.place_order env st2 args2 = _
    unfold MCPv2.place_order
    rw [hk2, heq]
  · obtain ⟨k, hmem, hnone, heq⟩ :=
      requiredLookup_missing args3 MCPv3.orderKeys "quantity" (by decide) h3
    refine ⟨k, hmem, hnone, ?_⟩
    unfold MCPv3.call_tool
    rw [if_neg (by decide), if_neg (by decide), if_pos rfl, hk3, heq]

/-- C6 witness: a concrete bag with everything but `quantity`. -/
theorem C6_place_order_missing_quantity_witness :
    (∃ k, k ∈ MCPv2.orderKeys ∧
      (Args.get [("tradingsymbol", Json.str "INFY")] k = none) ∧
      MCPv2.call_kite_tool okEnv v2Configured "place_order"
          [("tradingsymbol", Json.str "INFY")]
        = (v2Configured,
           [" Error placing order: " ++ (PyErr.keyError k).render], [])) ∧
    (∃ k, k ∈ MCPv3.orderKeys ∧
      (Args.get [("symbol", Json.str "INFY")] k = none) ∧
      MCPv3.call_tool okEnv v3Configured "place_order" [("symbol", Json.str "INFY")]
        = (v3Configured, some ["Error: " ++ (PyErr.keyError k).render], [])) :=
  C6_place_order_missing_quantity okEnv v2Configured v3Configured
    testClient testClient rfl rfl
    [("tradingsymbol", Json.str "INFY")] [("symbol", Json.str "INFY")] rfl rfl

/-- C7: reading an unknown resource uri on a configured instance fails with
an unknown-resource error — MCPv2 a ValueError wrapping `Unknown resource
URI`, MCPv3 a KeyError on the uri table — distinct from the not-configured
error that the same read produces in the initial (unconfigured) state, and
no adapter call is made. -/
theorem C7_unknown_resource (env : KiteEnv) (st2 : MCPv2.ServerState)
    (st3 : MCPv3.ServerState) (c2 c3 : KiteClient)
    (hk2 : st2.kite = some c2) (hcfg : st2.is_configured = true)
    (hk3 : st3.kite = some c3) (uri : String)
    (h2 : uri ∉ ["kite://profile", "kite://portfolio", "kite://positions",
      "kite://orders", "kite://funds", "kite://gtt-orders"])
    (h3 : uri ∉ ["kite://portfolio", "kite://positions", "kite://orders"]) :
    MCPv2.read_kite_resource env st2 uri
      = (.error (.valueError ("Failed to read resource " ++ uri ++ ": "
          ++ ("Unknown resource URI: " ++ uri))), []) ∧
    PyErr.valueError ("Failed to read resource " ++ uri ++ ": "
        ++ ("Unknown resource URI: " ++ uri))
      ≠ .valueError " Kite Connect not configured. Use configure_kite tool first." ∧
    MCPv2.read_kite_resource env MCPv2.initState uri
      = (.error
          (.valueError " Kite Connect not configured. Use configure_kite tool first."),
         []) ∧
    MCPv3.read_resource env st3 uri = (.error (.keyError uri), []) ∧
    PyErr.keyError uri ≠ .valueError "Configure Kite first" ∧
    MCPv3.read_resource env MCPv3.initState uri
      = (.error (.valueError "Configure Kite first"), []) := by
  simp only [List.mem_cons, List.not_mem_nil, or_false, not_or] at h2 h3
  obtain ⟨u1, u2, u3, u4, u5, u6⟩ := h2
  obtain ⟨w1, w2, w3⟩ := h3
  have hchk : MCPv2.check_kite_connection st2 = true := by
    unfold MCPv2.check_kite_connection
    rw [hk2, hcfg]
    rfl
  refine ⟨?_, ?_, rfl, ?_, ?_, rfl⟩
  · unfold MCPv2.read_kite_resource
    rw [hchk]
    unfold MCPv2.fetch_resource_data
    rw [if_neg u1, if_neg u2, if_neg u3, if_neg u4, if_neg u5, if_neg u6]
    rfl
  · intro h
    injection h with hmsg
    have hF : (" Kite Connect not configured. Use configure_kite tool first."
        : String).data.head? = some 'F' := by
      rw [← hmsg]
      exact rfl
    exact absurd hF (by decide)
  · unfold MCPv3.read_resource
    rw [hk3, if_neg w1, if_neg w2, if_neg w3]
  · intro h
    cases h

/-- C7 witness: the uri `kite://unknown` on configured concrete states. -/
theorem C7_unknown_resource_witness :
    v2Configured.is_configured = true ∧
    MCPv2.read_kite_resource okEnv v2Configured "kite://unknown"
      = (.error (.valueError ("Failed to read resource " ++ "kite://unknown" ++ ": "
          ++ ("Unknown resource URI: " ++ "kite://unknown"))), []) ∧
    MCPv3.read_resource okEnv v3Configured "kite://unknown"
      = (.error (.keyError "kite://unknown"), []) ∧
    MCPv2.read_kite_resource okEnv MCPv2.initState "kite://unknown"
      = (.error
          (.valueError " Kite Connect not configured. Use configure_kite tool first."),
         []) := by
  have h := C7_unknown_resource okEnv v2Configured v3Configured testClient testClient
    rfl rfl rfl "kite://unknown" (by decide) (by decide)
  exact ⟨rfl, h.1, h.2.2.2.1, h.2.2.1⟩

/-- C2 counterexample: the two dispatch layers are not behaviorally
equivalent up to naming. After identical failed-configure histories,
`get_gtt_orders` is still gated in MCPv2 (no adapter call) but reaches the
adapter in MCPv3; on configured instances with equally-named bags lacking
`price`, the order placement is called with different parameters (MCPv3 adds
`price = None`); and an empty GTT result yields a plain sentence in MCPv2
but an embedded JSON block in MCPv3. -/
theorem C2_counterexample :
    (MCPv2.call_kite_tool badTokenEnv stFailV2 "get_gtt_orders" []).2.2 = [] ∧
    (MCPv3.call_tool badTokenEnv stFailV3 "get_gtt_orders" []).2.2
      = [AdapterCall.gtts] ∧
    (MCPv2.call_kite_tool okEnv v2Configured "place_order" orderArgsV2).2.2
      = [AdapterCall.placeOrder
          [("tradingsymbol", Json.str "INFY"), ("exchange", Json.str "NSE"),
           ("transaction_type", Json.str "BUY"), ("quantity", Json.num 1),
           ("product", Json.str "CNC"), ("order_type", Json.str "MARKET"),
           ("variety", Json.str "regular")]] ∧
    (MCPv3.call_tool okEnv v3Configured "place_order" orderArgsV3).2.2
      = [AdapterCall.placeOrder
          [("tradingsymbol", Json.str "INFY"), ("exchange", Json.str "NSE"),
           ("transaction_type", Json.str "BUY"), ("quantity", Json.num 1),
           ("product", Json.str "CNC"), ("order_type", Json.str "MARKET"),
           ("price", Json.null), ("variety", Json.str "regular")]] ∧
    (MCPv2.call_kite_tool okEnv v2Configured "get_gtt_orders" []).2.1
      = ["No active GTT orders found."] ∧
    (MCPv3.call_tool okEnv v3Configured "get_gtt_orders" []).2.1
      = some ["GTT Orders:\n```json\n" ++ (Json.arr []).dumps ++ "\n```"] :=
  ⟨rfl, rfl, rfl, rfl, rfl, rfl⟩

/-- C2 (amended): equivalence up to naming does hold for the quote and
holdings commands on instances with a client set — the same adapter calls
with the same parameters (modulo the `instruments`/`symbols` argument key),
and responses carrying the same payload or the same error description — but
not for `place_order`, `get_gtt_orders`, or unknown names, which differ as
the counterexample shows. -/
theorem C2_quote_holdings_equivalent (env : KiteEnv) (st2 : MCPv2.ServerState)
    (st3 : MCPv3.ServerState) (c2 c3 : KiteClient)
    (hk2 : st2.kite = some c2) (hk3 : st3.kite = some c3) (v : Json) :
    (MCPv2.call_kite_tool env st2 "get_quote" [("instruments", v)]).2.2
      = (MCPv3.call_tool env st3 "quote" [("symbols", v)]).2.2 ∧
    (∀ q, env.quoteRes = .ok q →
      (MCPv2.call_kite_tool env st2 "get_quote" [("instruments", v)]).2.1
        = [" Real-time Quotes:\n```json\n" ++ q.dumps ++ "\n```"] ∧
      (MCPv3.call_tool env st3 "quote" [("symbols", v)]).2.1
        = some ["Quotes:\n```json\n" ++ q.dumps ++ "\n```"]) ∧
    (∀ e, env.quoteRes = .error e →
      (MCPv2.call_kite_tool env st2 "get_quote" [("instruments", v)]).2.1
        = [" Error getting quotes: " ++ e.render] ∧
      (MCPv3.call_tool env st3 "quote" [("symbols", v)]).2.1
        = some ["Error: " ++ e.render]) ∧
    (MCPv2.call_kite_tool env st2 "get_holdings" []).2.2
      = (MCPv3.call_tool env st3 "get_holdings" []).2.2 ∧
    (∀ d, env.holdingsRes = .ok d →
      (MCPv2.call_kite_tool env st2 "get_holdings" []).2.1
        = [" Current Holdings:\n```json\n" ++ d.dumps ++ "\n```"] ∧
      (MCPv3.call_tool env st3 "get_holdings" []).2.1
        = some ["Holdings:\n```json\n" ++ d.dumps ++ "\n```"]) ∧
    (∀ e, env.holdingsRes = .error e →
      (MCPv2.call_kite_tool env st2 "get_holdings" []).2.1
        = [" Error getting holdings: " ++ e.render] ∧
      (MCPv3.call_tool env st3 "get_holdings" []).2.1
        = some ["Error: " ++ e.render]) := by
  refine ⟨?_, ?_, ?_, ?_, ?_, ?_⟩
  · show (MCPv2.get_quote env st2 [("instruments", v)]).2.2 = _
    unfold MCPv2.get_quote MCPv3.call_tool
    rw [hk2, hk3]
    cases env.quoteRes <;> rfl
  · intro q hq
    constructor
    · show (MCPv2.get_quote env st2 [("instruments", v)]).2.1 = _
      unfold MCPv2.get_quote
      rw [hk2, hq]
      rfl
    · unfold MCPv3.call_tool
      rw [hk3]
      simp only [hq]
      rfl
  · intro e he
    constructor
    · show (MCPv2.get_quote env st2 [("instruments", v)]).2.1 = _
      unfold MCPv2.get_quote
      rw [hk2, he]
      rfl
    · unfold MCPv3.call_tool
      rw [hk3]
      simp only [he]
      rfl
  · show (MCPv2.get_holdings env st2 []).2.2 = _
    unfold MCPv2.get_holdings MCPv3.call_tool
    rw [hk2, hk3]
    cases env.holdingsRes <;> rfl
  · intro d hd
    constructor
    · show (MCPv2.get_holdings env st2 []).2.1 = _
      unfold MCPv2.get_holdings
      rw [hk2, hd]
    · unfold MCPv3.call_tool
      rw [hk3]
      simp only [hd]
      rfl
  · intro e he
    constructor
    · show (MCPv2.get_holdings env st2 []).2.1 = _
      unfold MCPv2.get_holdings
      rw [hk2, he]
    · unfold MCPv3.call_tool
      rw [hk3]
      simp only [he]
      rfl

/-- C2 witness: equal quote adapter calls on concrete configured states. -/
theorem C2_quote_holdings_equivalent_witness :
    v2Configured.kite = some testClient ∧
    (MCPv2.call_kite_tool okEnv v2Configured "get_quote"
        [("instruments", Json.str "NSE:INFY")]).2.2
      = (MCPv3.call_tool okEnv v3Configured "quote"
          [("symbols", Json.str "NSE:INFY")]).2.2 :=
  ⟨rfl, (C2_quote_holdings_equivalent okEnv v2Configured v3Configured
    testClient testClient rfl rfl (Json.str "NSE:INFY")).1⟩

/-- C10 witness: concrete empty and one-element `gtts` results. -/
theorem C10_gtt_empty_sentence_witness :
    v2Configured.is_configured = true ∧
    MCPv2.call_kite_tool okEnv v2Configured "get_gtt_orders" []
      = (v2Configured, ["No active GTT orders found."], [.gtts]) ∧
    MCPv2.call_kite_tool { okEnv with gttsRes := .ok [Json.num 7] }
        v2Configured "get_gtt_orders" []
      = (v2Configured,
         [" Active GTT Orders:\n```json\n" ++ (Json.arr [Json.num 7]).dumps ++ "\n```"],
         [.gtts]) := by
  refine ⟨rfl, ?_, ?_⟩
  · exact (C10_gtt_empty_sentence okEnv v2Configured _ rfl rfl []).1 rfl
  · exact (C10_gtt_empty_sentence { okEnv with gttsRes := .ok [Json.num 7] }
      v2Configured _ rfl rfl []).2 (Json.num 7) [] rfl
